import Mathlib

/-!
Verification of the `samccann.sqlite` Ansible collection against its
natural-language specification.

The development shallowly embeds the Python sources:
  * `plugins/module_utils/sqlite_common.py`
      (`standardize_error_message`, `validate_sql_identifier`,
       `safe_execute_with_retry`, `validate_database_path`)
  * `plugins/modules/sqlite_query.py` (`execute_query`)
  * `plugins/modules/sqlite_db.py` (`validate_database_path`)

Python-level behaviour that the code relies on is embedded explicitly:
exception-class hierarchies (`PermissionError` is a subclass of `OSError`;
`sqlite3.IntegrityError` and `sqlite3.OperationalError` are subclasses of
`sqlite3.DatabaseError`), truthiness of lists and strings, `re.match`
semantics for `$` (which also matches just before a single trailing
newline), and the `sqlite3` cursor's `rowcount` convention (−1 after a
`SELECT`).  External effects (the SQLite engine, `time.sleep`,
`os.path.realpath`) are modelled as explicit oracles or traces.
-/

namespace SqliteCollection

/-- Does the first list occur at the start of the second? -/
def charsStartWith : List Char → List Char → Bool
  | [], _ => true
  | _ :: _, [] => false
  | p :: ps, c :: cs => p = c && charsStartWith ps cs

/-- Does the first list occur contiguously anywhere in the second? -/
def charsContain (needle : List Char) : List Char → Bool
  | [] => needle.isEmpty
  | c :: cs => charsStartWith needle (c :: cs) || charsContain needle cs

/-- Substring test: `containsSub s pat` models the Python expression
`pat in s`. -/
def containsSub (s pat : String) : Bool :=
  charsContain pat.data s.data

/-- Python `s.lower()` (ASCII case mapping suffices for this code). -/
def pyLower (s : String) : String :=
  String.mk (s.data.map Char.toLower)

/-- Python `s.strip()`: remove leading and trailing whitespace.  (Python
also strips `\x0b`/`\x0c`; the queries this code handles do not contain
them.) -/
def pyStrip (s : String) : String :=
  String.mk
    (((s.data.dropWhile Char.isWhitespace).reverse.dropWhile
        Char.isWhitespace).reverse)

/-- Python `s[:n]`. -/
def pyTake (s : String) (n : Nat) : String :=
  String.mk (s.data.take n)

/-- Python `s.split(sep)` for a single-character separator (the code
only splits on `";"`). -/
def pySplitChar (sep : Char) : List Char → List (List Char)
  | [] => [[]]
  | c :: cs =>
    if c = sep then [] :: pySplitChar sep cs
    else
      match pySplitChar sep cs with
      | [] => [[c]]
      | g :: gs => (c :: g) :: gs

/-! ## Python exception values

`PyError` models the Python exception object passed around by
`sqlite_common.py`.  Constructors record the dynamic class and the
`str(e)` text.  The `pynone` constructor models the Python value `None`
(used for the `last_error = None` initialisation in
`safe_execute_with_retry`); `str(None)` is `"None"`. -/
inductive PyError where
  | integrityError (msg : String)
  | operationalError (msg : String)
  | databaseError (msg : String)
  | permissionError (msg : String)
  | osError (msg : String)
  | otherExc (msg : String)
  | pynone
deriving DecidableEq, Repr

/-- Python `isinstance(e, sqlite3.IntegrityError)`. -/
def PyError.isIntegrityError : PyError → Bool
  | .integrityError _ => true
  | _ => false

/-- Python `isinstance(e, sqlite3.OperationalError)`. -/
def PyError.isOperationalError : PyError → Bool
  | .operationalError _ => true
  | _ => false

/-- Python `isinstance(e, sqlite3.DatabaseError)`: `IntegrityError` and
`OperationalError` are subclasses of `DatabaseError`. -/
def PyError.isDatabaseError : PyError → Bool
  | .integrityError _ => true
  | .operationalError _ => true
  | .databaseError _ => true
  | _ => false

/-- Python `isinstance(e, (OSError, IOError))`: `IOError` is an alias of
`OSError`, and `PermissionError` is a subclass of `OSError`. -/
def PyError.isOSError : PyError → Bool
  | .permissionError _ => true
  | .osError _ => true
  | _ => false

/-- Python `isinstance(e, PermissionError)`. -/
def PyError.isPermissionError : PyError → Bool
  | .permissionError _ => true
  | _ => false

/-- Python `str(e)`. -/
def PyError.str : PyError → String
  | .integrityError m => m
  | .operationalError m => m
  | .databaseError m => m
  | .permissionError m => m
  | .osError m => m
  | .otherExc m => m
  | .pynone => "None"

/-- Embedding of `standardize_error_message` from
`plugins/module_utils/sqlite_common.py` lines 42–84.  The `context` dict
is modelled as an insertion-ordered association list whose values are
already stringified (Python interpolates them with `f"{key}={value}"`). -/
def standardize_error_message (operation : String) (error : PyError)
    (context : List (String × String)) : String :=
  let base_msg := "SQLite " ++ operation ++ " failed"
  let error_type :=
    if error.isIntegrityError then "Integrity constraint violation"
    else if error.isOperationalError then "Database operation error"
    else if error.isDatabaseError then "Database error"
    else if error.isOSError then "File system error"
    else if error.isPermissionError then "Permission error"
    else "Unexpected error"
  let detailed_msg := base_msg ++ ": " ++ error_type ++ " - " ++ error.str
  if context.isEmpty then detailed_msg
  else
    detailed_msg ++ " (Context: " ++
      String.intercalate ", " (context.map (fun kv => kv.1 ++ "=" ++ kv.2)) ++ ")"

/-! ## Identifier validation -/

/-- Characters allowed by the regex class `[a-zA-Z_]`. -/
def isIdentStart (c : Char) : Bool :=
  ('a' ≤ c && c ≤ 'z') || ('A' ≤ c && c ≤ 'Z') || c = '_'

/-- Characters allowed by the regex class `[a-zA-Z0-9_]`. -/
def isIdentChar (c : Char) : Bool :=
  isIdentStart c || ('0' ≤ c && c ≤ '9')

/-- Embedding of `re.match(r"^[a-zA-Z_][a-zA-Z0-9_]*$", name)` viewed as a
boolean.  In Python (without `re.MULTILINE`) the anchor `$` matches at the
end of the string, and also just before a newline that is the last
character of the string; so the pattern accepts `body` and `body ++ "\n"`
where `body` is a nonempty identifier-shaped string. -/
def matchesIdentifierPattern (name : String) : Bool :=
  match name.data with
  | [] => false
  | c :: rest =>
    isIdentStart c &&
      (rest.all isIdentChar ||
        (!rest.isEmpty && rest.dropLast.all isIdentChar &&
          rest.getLast? = some '\n'))

/-- The `reserved_keywords` set from `validate_sql_identifier`
(`sqlite_common.py` lines 117–242). -/
def reserved_keywords : List String :=
  ["abort", "action", "add", "after", "all", "alter", "analyze", "and",
   "as", "asc", "attach", "autoincrement", "before", "begin", "between",
   "by", "cascade", "case", "cast", "check", "collate", "column",
   "commit", "conflict", "constraint", "create", "cross", "current_date",
   "current_time", "current_timestamp", "database", "default",
   "deferrable", "deferred", "delete", "desc", "detach", "distinct",
   "drop", "each", "else", "end", "escape", "except", "exclusive",
   "exists", "explain", "fail", "for", "foreign", "from", "full", "glob",
   "group", "having", "if", "ignore", "immediate", "in", "index",
   "indexed", "initially", "inner", "insert", "instead", "intersect",
   "into", "is", "isnull", "join", "key", "left", "like", "limit",
   "match", "natural", "no", "not", "notnull", "null", "of", "offset",
   "on", "or", "order", "outer", "plan", "pragma", "primary", "query",
   "raise", "recursive", "references", "regexp", "reindex", "release",
   "rename", "replace", "restrict", "right", "rollback", "row",
   "savepoint", "select", "set", "table", "temp", "temporary", "then",
   "to", "transaction", "trigger", "union", "unique", "update", "using",
   "vacuum", "values", "view", "virtual", "when", "where", "with",
   "without"]

/-- Embedding of `validate_sql_identifier` from `sqlite_common.py` lines
87–249 (the `isinstance(name, str)` guard is dischargeable by typing).
Errors carry the raised `SQLiteValidationError` message. -/
def validate_sql_identifier (name : String)
    (identifier_type : String) : Except String String :=
  if name = "" then
    .error ("SQL " ++ identifier_type ++ " cannot be empty")
  else if !matchesIdentifierPattern name then
    .error ("Invalid SQL " ++ identifier_type ++ ": '" ++ name ++ "'. " ++
      "Must start with letter or underscore, contain only letters, numbers, and underscores")
  else if reserved_keywords.contains (pyLower name) then
    .error ("SQL " ++ identifier_type ++ " '" ++ name ++
      "' is a reserved keyword and cannot be used")
  else
    .ok name

/-! ## Retry wrapper

`safe_execute_with_retry` (`sqlite_common.py` lines 252–314) wraps
`cursor.execute` in a bounded retry loop.  The cursor/engine is modelled
as an oracle `eng : Nat → Option PyError` giving the exception (if any)
raised by the execution attempt with that index; parameter binding is
folded into the oracle since it does not affect the retry logic.
`time.sleep` calls are recorded as a trace of durations (floats modelled
as rationals), and the number of execution attempts made is counted. -/

/-- Failure type of the retry wrapper: every raise in
`safe_execute_with_retry` constructs a `SQLiteOperationError`. -/
inductive RetryFailure where
  | operationError (msg : String)
deriving DecidableEq, Repr

/-- Observable outcome of one `safe_execute_with_retry` call: the
returned value (or raised `SQLiteOperationError`), the trace of
`time.sleep` durations, and how many `cursor.execute` attempts ran. -/
structure RetryOutcome where
  result : Except RetryFailure Unit
  sleeps : List ℚ
  attempts : Nat
deriving Repr

/-- The transient-error test from `safe_execute_with_retry`:
`error_msg = str(e).lower()` followed by
`"database is locked" in error_msg or "busy" in error_msg`. -/
def isTransientMsg (msg : String) : Bool :=
  containsSub (pyLower msg) "database is locked" || containsSub (pyLower msg) "busy"

/-- One execution attempt re-enters the loop exactly when the raised
exception is an `sqlite3.OperationalError` whose message is transient and
further retries remain; otherwise the handler raises immediately.  (The
`except sqlite3.OperationalError` and `except Exception` handlers build
the same message, so they are collapsed into one raise here.) -/
def retriesAt (e : PyError) (attempt max_retries : Nat) : Bool :=
  e.isOperationalError && isTransientMsg e.str && decide (attempt < max_retries)

/-- The body of the `for attempt in range(max_retries + 1)` loop of
`safe_execute_with_retry`, recursing on the number of remaining loop
iterations (`fuel`).  The `fuel = 0` case is the fall-off-the-end raise
at lines 308–314 (`max_retries`/`final_attempt` context); it is
reachable only if every iteration hit `continue`, and the last iteration
never does. -/
def retryLoop (eng : Nat → Option PyError) (query : String)
    (max_retries : Nat) (retry_delay : ℚ) :
    Nat → Nat → Option PyError → RetryOutcome
  | 0, _, last_error =>
    { result := .error (.operationError (standardize_error_message
        "query execution" (last_error.getD .pynone)
        [("query", pyTake query 100),
         ("max_retries", toString max_retries),
         ("final_attempt", "True")]))
      sleeps := []
      attempts := 0 }
  | fuel + 1, attempt, _ =>
    match eng attempt with
    | none => { result := .ok (), sleeps := [], attempts := 1 }
    | some e =>
      if retriesAt e attempt max_retries then
        let rest := retryLoop eng query max_retries retry_delay fuel
          (attempt + 1) (some e)
        { result := rest.result
          sleeps := retry_delay * 2 ^ attempt :: rest.sleeps
          attempts := rest.attempts + 1 }
      else
        { result := .error (.operationError (standardize_error_message
            "query execution" e
            [("query", pyTake query 100),
             ("attempt", toString (attempt + 1))]))
          sleeps := []
          attempts := 1 }

/-- Embedding of `safe_execute_with_retry` (`sqlite_common.py` lines
252–314); the Python defaults are `max_retries=3`, `retry_delay=0.1`. -/
def safe_execute_with_retry (eng : Nat → Option PyError) (query : String)
    (max_retries : Nat) (retry_delay : ℚ) : RetryOutcome :=
  retryLoop eng query max_retries retry_delay (max_retries + 1) 0 none

/-! ## Database-path validation

Two distinct implementations exist in the sources: one in
`sqlite_common.py` lines 317–354 and one in `sqlite_db.py` lines
206–225.  `os.path.realpath` is modelled as an oracle
`realpath : String → String` (total; the `OSError`/`ValueError` escape
hatch in the Python code is not exercised by `realpath` on strings), and
`os.path.isabs` as a check for a leading `/` (POSIX). -/

/-- Python `os.path.isabs` on POSIX: the path starts with a slash. -/
def isabs (p : String) : Bool :=
  charsStartWith "/".data p.data

/-- Embedding of `validate_database_path` from `sqlite_common.py` lines
317–354 (the `isinstance(path, str)` guard is dischargeable by typing). -/
def common_validate_database_path (realpath : String → String)
    (path : String) : Except String String :=
  if path = "" then
    .error "Database path cannot be empty"
  else
    let resolved_path := realpath path
    if containsSub path ".." then
      .error ("Directory traversal detected in path: " ++ path)
    else if !isabs resolved_path then
      .error ("Database path must be absolute: " ++ path)
    else
      .ok resolved_path

/-- Embedding of `validate_database_path` from `sqlite_db.py` lines
206–225. -/
def db_validate_database_path (realpath : String → String)
    (path : String) : Except String String :=
  let resolved_path := realpath path
  if containsSub path ".." || path ≠ resolved_path then
    .error ("Directory traversal detected in path: " ++ path)
  else if !isabs resolved_path then
    .error ("Database path must be absolute: " ++ path)
  else
    .ok resolved_path

/-! ## Statement executor (`execute_query`)

`execute_query` (`plugins/modules/sqlite_query.py` lines 157–270) drives
one connection through validation, execution, fetch, `changed`
classification and commit/rollback.  The SQLite engine is modelled as an
oracle (`Engine`) giving the outcome of each possible cursor call, and
the calls actually issued are recorded in a trace.  Because
`conn.row_factory = sqlite3.Row` is set before the cursor in use is
created, fetched rows are `sqlite3.Row` objects (modelled as column
names plus values), so the `isinstance(rows[0], sqlite3.Row)` branch of
the code is the one taken whenever rows exist. -/

/-- A fetched `sqlite3.Row`: `keys()` and the column-ordered values. -/
structure RowObj where
  keys : List String
  vals : List String
deriving DecidableEq, Repr

/-- Failure of an engine-level cursor call: either an exception in the
`sqlite3.Error` hierarchy or any other exception. -/
inductive EngFailure where
  | sqliteErr (msg : String)
  | otherErr (msg : String)
deriving DecidableEq, Repr

/-- Oracle for the SQLite engine during one `execute_query` call:
whether the database file exists, the outcome (exception or resulting
`cursor.rowcount`) of `cursor.executescript(query)`, of
`cursor.execute(query)`, and of `cursor.execute(query, parameters)`, and
the rows subsequently available to `fetchall`/`fetchone`. -/
structure Engine where
  dbExists : Bool
  scriptOutcome : Except EngFailure Int
  execOutcome : Except EngFailure Int
  execParamsOutcome : Except EngFailure Int
  fetched : List RowObj

/-- Errors propagated out of `execute_query`: `sqliteError` is a raised
`sqlite3.DatabaseError` (carrying the exact message built by the code),
`otherError` a non-`sqlite3.Error` exception re-raised as-is. -/
inductive QueryError where
  | sqliteError (msg : String)
  | otherError (msg : String)
deriving DecidableEq, Repr

/-- The `results` dict returned by `execute_query`: the `rowcount` key,
the optional `columns` and `rows` keys (absent = `none`), and the
`changed` key. -/
structure QueryResult where
  rowcount : Int
  columns : Option (List String)
  rows : Option (List (List String))
  changed : Bool
deriving DecidableEq, Repr

/-- Engine calls recorded while `execute_query` runs. -/
inductive EngineCall where
  | script
  | exec
  | execParams
  | commit
  | rollback
deriving DecidableEq, Repr

/-- Whether a traced engine call executes SQL statements (as opposed to
transaction control). -/
def EngineCall.isExecution : EngineCall → Bool
  | .script => true
  | .exec => true
  | .execParams => true
  | _ => false

/-- The statement splitter used twice by `execute_query` (lines 184 and
229): `[stmt.strip() for stmt in query.split(";") if stmt.strip()]`. -/
def splitStatements (query : String) : List String :=
  (((pySplitChar ';' query.data).map (fun l => pyStrip (String.mk l))).filter
    (fun s => s ≠ ""))

/-- `dml_keywords` from `execute_query` line 223. -/
def dml_keywords : List String := ["insert", "update", "delete"]

/-- `ddl_keywords` from `execute_query` line 224. -/
def ddl_keywords : List String := ["create", "drop", "alter"]

/-- The `changed` classification of `execute_query` lines 222–251,
computed from the query text and the final `cursor.rowcount`. -/
def computeChanged (query : String) (rowcount : Int) : Bool :=
  let query_lower := pyStrip (pyLower query)
  let statements := splitStatements query
  if 1 < statements.length then
    statements.any (fun stmt =>
      (dml_keywords ++ ddl_keywords).any (fun kw =>
        containsSub (pyStrip (pyLower stmt)) kw))
  else
    if dml_keywords.any (fun kw => containsSub query_lower kw) then
      decide (0 < rowcount)
    else if ddl_keywords.any (fun kw => containsSub query_lower kw) then
      true
    else
      false

/-- The fetch step of `execute_query` lines 202–220: returns the
optional `columns` and `rows` entries of the result dict.  Only
`fetch ∈ {"all", "one"}` can reach the fetch calls (the module restricts
`fetch` to `all`/`one`/`none`); any other string takes the dead
`else: rows = []` branch. -/
def fetchStep (eng : Engine) (query : String) (fetch : String) :
    Option (List String) × Option (List (List String)) :=
  if fetch ≠ "none" then
    let query_lower := pyStrip (pyLower query)
    if charsStartWith "select".data query_lower.data || containsSub query_lower "returning" then
      let rows : List RowObj :=
        if fetch = "all" then eng.fetched
        else if fetch = "one" then
          match eng.fetched.head? with
          | some r => [r]
          | none => []
        else []
      match rows with
      | [] => (none, none)
      | r :: _ => (some r.keys, some (rows.map RowObj.vals))
    else (none, none)
  else (none, none)

/-- Python truthiness of the `parameters` argument (`None` or a list). -/
def paramsTruthy : Option (List String) → Bool
  | none => false
  | some l => !l.isEmpty

/-- Builds the success-path `results` dict of `execute_query` for a
given final `cursor.rowcount`. -/
def mkResult (eng : Engine) (query : String) (fetch : String)
    (rowcount : Int) : QueryResult :=
  { rowcount := rowcount
    columns := (fetchStep eng query fetch).1
    rows := (fetchStep eng query fetch).2
    changed := computeChanged query rowcount }

/-- Trace suffix for the success path: `conn.commit()` iff
`transaction`. -/
def commitTrace (transaction : Bool) : List EngineCall :=
  if transaction then [.commit] else []

/-- Trace suffix for the failure path: `conn.rollback()` iff
`transaction` (the `conn` guard holds—`conn` is set directly after
`sqlite3.connect`). -/
def rollbackTrace (transaction : Bool) : List EngineCall :=
  if transaction then [.rollback] else []

/-- Shared tail of `execute_query` after an engine execution call:
either wrap the raised error (rolling back first) or run the fetch step,
compute `changed`, and commit. -/
def finishExecution (eng : Engine) (query : String) (fetch : String)
    (transaction : Bool) (call : EngineCall)
    (outcome : Except EngFailure Int) :
    Except QueryError QueryResult × List EngineCall :=
  match outcome with
  | .error (.sqliteErr m) =>
    (.error (.sqliteError ("SQLite error: " ++ m)),
     call :: rollbackTrace transaction)
  | .error (.otherErr m) =>
    (.error (.otherError m), call :: rollbackTrace transaction)
  | .ok rc =>
    (.ok (mkResult eng query fetch rc), call :: commitTrace transaction)

/-- Embedding of `execute_query` (`sqlite_query.py` lines 157–270).
Returns the outcome (result dict or raised error) together with the
trace of engine calls issued.  Cursor/connection `close()` calls in the
`finally` block are unconditional and are not traced. -/
def execute_query (eng : Engine) (db_path query : String)
    (parameters : Option (List String)) (fetch : String)
    (transaction : Bool) :
    Except QueryError QueryResult × List EngineCall :=
  if !eng.dbExists then
    (.error (.sqliteError ("Database file does not exist: " ++ db_path)), [])
  else
    let statements := splitStatements query
    if 1 < statements.length then
      if paramsTruthy parameters then
        -- the raise at lines 189–191 is a `sqlite3.DatabaseError`; the
        -- `except sqlite3.Error` handler rolls back and re-wraps it
        (.error (.sqliteError
            "SQLite error: Parameters are not supported with multiple statements"),
         rollbackTrace transaction)
      else
        finishExecution eng query fetch transaction .script eng.scriptOutcome
    else
      if paramsTruthy parameters then
        finishExecution eng query fetch transaction .execParams
          eng.execParamsOutcome
      else
        finishExecution eng query fetch transaction .exec eng.execOutcome

/-! ## Concrete engines used to instantiate the theorems -/

/-- A cursor whose every execution attempt raises
`sqlite3.OperationalError("database is locked")`. -/
def lockedEngine : Nat → Option PyError :=
  fun _ => some (.operationalError "database is locked")

/-- A cursor whose first two execution attempts raise
`sqlite3.OperationalError("database is locked")` and whose third
succeeds. -/
def lockedTwiceEngine : Nat → Option PyError :=
  fun n => if n < 2 then some (.operationalError "database is locked") else none

/-- An engine for an existing database on which every execution succeeds
with cumulative rowcount 2 and no fetched rows (e.g. a two-`INSERT`
script). -/
def multiEngine : Engine :=
  { dbExists := true
    scriptOutcome := .ok 2
    execOutcome := .ok 2
    execParamsOutcome := .ok 2
    fetched := [] }

/-- An engine for an existing database holding an empty table `t`:
executing `SELECT * FROM t` succeeds, the `sqlite3` cursor reports
`rowcount = -1` after a `SELECT` (its documented convention for
statements that do not modify rows), and no rows are fetched. -/
def selectEmptyEngine : Engine :=
  { dbExists := true
    scriptOutcome := .ok (-1)
    execOutcome := .ok (-1)
    execParamsOutcome := .ok (-1)
    fetched := [] }

/-- A model of `os.path.realpath` on a symlink-free file system whose
working directory is `/home/user`: absolute paths are returned
unchanged, relative paths are anchored at the working directory. -/
def realpathFromCwd : String → String :=
  fun p => if isabs p then p else "/home/user/" ++ p

/-! ## Claim theorems -/

/-- Claim C6 (evaluation at the failing input): when every attempt
raises `OperationalError("database is locked")` with `max_retries = 3`
and `retry_delay = 0.1`, `safe_execute_with_retry` raises the
`SQLiteOperationError` built by the in-loop raise, whose context is
`query=…, attempt=4` — not the `max_retries`/`final_attempt` context of
the unreachable raise after the loop — after sleeping 0.1, 0.2 and 0.4
seconds. -/
theorem retry_exhaustion_context_eval :
    safe_execute_with_retry lockedEngine "UPDATE t SET x = 1" 3 (1/10) =
      { result := .error (.operationError
          ("SQLite query execution failed: Database operation error - " ++
           "database is locked (Context: query=UPDATE t SET x = 1, attempt=4)"))
        sleeps := [1/10 * 2 ^ 0, 1/10 * 2 ^ 1, 1/10 * 2 ^ 2]
        attempts := 4 } := by
  rfl

/-- Claim C7 (evaluation at the failing input): `validate_sql_identifier`
accepts `"abc\n"` and returns it unchanged, because Python's `$` anchor
also matches just before a trailing newline — even though the string
contains a character outside `[A-Za-z0-9_]`. -/
theorem validate_identifier_trailing_newline_eval :
    validate_sql_identifier "abc\n" "identifier" = .ok "abc\n" := by
  rfl

/-- Claim C8 (evaluation at the failing input): a `PermissionError` is
classified as `"File system error"`, not `"Permission error"`, because
the `isinstance(error, (OSError, IOError))` check precedes the
`isinstance(error, PermissionError)` check and `PermissionError` is a
subclass of `OSError`; the permission branch is unreachable. -/
theorem permission_error_classified_filesystem_eval :
    standardize_error_message "database creation"
        (.permissionError "Permission denied") [] =
      "SQLite database creation failed: File system error - Permission denied" := by
  rfl

/-- Claim C4 (counterexample): on a faithful engine model of an existing
database with an empty table `t`, `execute_query(db, "SELECT * FROM t")`
succeeds with no `columns`/`rows` keys and `changed = false`, but its
`rowcount` is the `sqlite3` cursor's `-1` for `SELECT` statements — not
`0` as the claim states. -/
theorem select_empty_rowcount_counterexample :
    (execute_query selectEmptyEngine "/var/lib/app.db" "SELECT * FROM t"
        none "all" true).1 =
      .ok { rowcount := -1, columns := none, rows := none, changed := false } ∧
    ¬ ((-1 : Int) = 0) := by
  exact ⟨rfl, by decide⟩

/-- Claim C4 (amended): for every engine modelling an existing database
with an empty table `t` — the `SELECT` succeeds with the cursor's
`rowcount = -1` and fetches no rows, while the script/parameter oracles
are arbitrary — `execute_query(db, "SELECT * FROM t")` succeeds with
`rowsAffected = -1`, no `columns` key, no `rows` key, and
`changed = false`. -/
theorem select_empty_table_result (so epo : Except EngFailure Int)
    (db : String) :
    (execute_query
        { dbExists := true, scriptOutcome := so, execOutcome := .ok (-1),
          execParamsOutcome := epo, fetched := [] }
        db "SELECT * FROM t" none "all" true).1 =
      .ok { rowcount := -1, columns := none, rows := none, changed := false } := by
  rfl

/-- Claim C9 (counterexample): the `sqlite_common.py` variant of
`validate_database_path` accepts the relative path `"data/app.db"`
(under a symlink-free file system with working directory `/home/user`),
returning its resolution — the claim requires every relative path to be
rejected. -/
theorem common_path_accepts_relative_counterexample :
    common_validate_database_path realpathFromCwd "data/app.db" =
        .ok "/home/user/data/app.db" ∧
      isabs "data/app.db" = false := by
  exact ⟨rfl, rfl⟩

/-- Claim C9 (amended): the `sqlite_db.py` variant of
`validate_database_path` satisfies the claim.  For any model of
`os.path.realpath` that returns absolute paths, it rejects every
relative path, every path containing `".."`, and every path whose
resolved real path differs from the literal input; on success the
returned path is the resolved path, is absolute, and coincides with the
input (hence is the canonical absolute form). -/
theorem db_validate_database_path_spec (realpath : String → String)
    (path : String) (habs : ∀ p, isabs (realpath p) = true) :
    (isabs path = false →
      db_validate_database_path realpath path =
        .error ("Directory traversal detected in path: " ++ path)) ∧
    (containsSub path ".." = true →
      db_validate_database_path realpath path =
        .error ("Directory traversal detected in path: " ++ path)) ∧
    (path ≠ realpath path →
      db_validate_database_path realpath path =
        .error ("Directory traversal detected in path: " ++ path)) ∧
    (∀ r, db_validate_database_path realpath path = .ok r →
      r = realpath path ∧ isabs r = true ∧ path = realpath path) := by
  have hne_of_rel : isabs path = false → path ≠ realpath path := by
    intro hrel he
    have h2 := habs path
    rw [← he, hrel] at h2
    exact Bool.false_ne_true h2
  refine ⟨?_, ?_, ?_, ?_⟩
  · intro hrel
    simp [db_validate_database_path, hne_of_rel hrel]
  · intro hdots
    simp [db_validate_database_path, hdots]
  · intro hne
    simp [db_validate_database_path, hne]
  · intro r hr
    simp only [db_validate_database_path] at hr
    by_cases hdots : containsSub path ".." = true
    · simp [hdots] at hr
    · by_cases hne : path = realpath path
      · have habs' := habs path
        rw [← hne] at habs' hr
        simp [hdots, habs'] at hr
        subst hr
        exact ⟨hne, habs', hne⟩
      · simp [hdots, hne] at hr

/-- Witness for `db_validate_database_path_spec`: instantiated at a
constant resolver and the relative path `"relative/app.db"`, the
validator rejects the path. -/
theorem db_validate_database_path_spec_witness :
    db_validate_database_path (fun _ => "/resolved/app.db") "relative/app.db" =
      .error "Directory traversal detected in path: relative/app.db" := by
  exact (db_validate_database_path_spec (fun _ => "/resolved/app.db")
    "relative/app.db" (fun _ => rfl)).1 rfl

/-- Claim C5: for every existing database, a query whose semicolon split
yields more than one non-empty statement, called with a non-empty
parameters list, fails with the parameters-not-supported validation
error before any statement is executed — the engine trace contains no
execution call (only the rollback of the untouched transaction), so the
database is left unchanged. -/
theorem multi_statement_params_rejected (eng : Engine) (db q : String)
    (params : List String) (fetch : String) (transaction : Bool)
    (hdb : eng.dbExists = true)
    (hmulti : 1 < (splitStatements q).length)
    (hp : params ≠ []) :
    execute_query eng db q (some params) fetch transaction =
      (.error (.sqliteError
          "SQLite error: Parameters are not supported with multiple statements"),
        rollbackTrace transaction) ∧
    (execute_query eng db q (some params) fetch transaction).2.all
      (fun c => !c.isExecution) = true := by
  have htr : paramsTruthy (some params) = true := by
    cases params with
    | nil => exact absurd rfl hp
    | cons a l => rfl
  have hmain : execute_query eng db q (some params) fetch transaction =
      (.error (.sqliteError
          "SQLite error: Parameters are not supported with multiple statements"),
        rollbackTrace transaction) := by
    simp [execute_query, hdb, hmulti, htr]
  refine ⟨hmain, ?_⟩
  rw [hmain]
  cases transaction <;> rfl

/-- Witness for `multi_statement_params_rejected`: a concrete
two-statement insert with one bound parameter is rejected with the
expected error and an execution-free trace. -/
theorem multi_statement_params_rejected_witness :
    multiEngine.dbExists = true ∧
    1 <
      (splitStatements
        "INSERT INTO t VALUES (1); INSERT INTO t VALUES (2);").length ∧
    execute_query multiEngine "/var/lib/app.db"
        "INSERT INTO t VALUES (1); INSERT INTO t VALUES (2);"
        (some ["x"]) "all" true =
      (.error (.sqliteError
          "SQLite error: Parameters are not supported with multiple statements"),
        rollbackTrace true) := by
  refine ⟨rfl, by decide, ?_⟩
  exact (multi_statement_params_rejected multiEngine "/var/lib/app.db"
    "INSERT INTO t VALUES (1); INSERT INTO t VALUES (2);" ["x"] "all" true
    rfl (by decide) (by decide)).1

/-- Claim C10: passing `parameters = []` is indistinguishable from
omitting `parameters` (`None`), since Python truthiness drives both the
multi-statement rejection and the binding decision; in particular a
multi-statement query with an empty parameters list runs as a script,
and a single statement with an empty parameters list runs without
parameter binding. -/
theorem execute_query_empty_params_eq_none :
    (∀ (eng : Engine) (db q fetch : String) (transaction : Bool),
      execute_query eng db q (some []) fetch transaction =
        execute_query eng db q none fetch transaction) ∧
    (execute_query multiEngine "/var/lib/app.db"
        "INSERT INTO t VALUES (1); INSERT INTO t VALUES (2)"
        (some []) "all" true).2 = [.script, .commit] ∧
    (execute_query multiEngine "/var/lib/app.db" "INSERT INTO t VALUES (1)"
        (some []) "all" true).2 = [.exec, .commit] := by
  exact ⟨fun eng db q fetch transaction => rfl, rfl, rfl⟩

/-- Any successful `finishExecution` outcome carries the `changed` flag
computed by `computeChanged` from the query and the reported rowcount. -/
theorem finishExecution_ok_changed (eng : Engine) (q fetch : String)
    (transaction : Bool) (call : EngineCall)
    (outcome : Except EngFailure Int) (res : QueryResult)
    (tr : List EngineCall)
    (h : finishExecution eng q fetch transaction call outcome = (.ok res, tr)) :
    res.changed = computeChanged q res.rowcount := by
  unfold finishExecution at h
  split at h
  · simp at h
  · simp at h
  · rw [Prod.mk.injEq] at h
    obtain ⟨h1, -⟩ := h
    rw [Except.ok.injEq] at h1
    subst h1
    rfl

/-- Any successful `execute_query` outcome carries the `changed` flag
computed by `computeChanged` from the query and the reported rowcount. -/
theorem execute_query_ok_changed (eng : Engine) (db q : String)
    (params : Option (List String)) (fetch : String) (transaction : Bool)
    (res : QueryResult) (tr : List EngineCall)
    (h : execute_query eng db q params fetch transaction = (.ok res, tr)) :
    res.changed = computeChanged q res.rowcount := by
  simp only [execute_query] at h
  split at h
  · simp at h
  · split at h
    · split at h
      · simp at h
      · exact finishExecution_ok_changed _ _ _ _ _ _ _ _ h
    · split at h
      · exact finishExecution_ok_changed _ _ _ _ _ _ _ _ h
      · exact finishExecution_ok_changed _ _ _ _ _ _ _ _ h

/-- Claim C1: every result successfully returned by `execute_query` has
its `changed` flag computed as the claim states.  When the semicolon
split of the query yields more than one non-empty statement, `changed`
is true iff some segment's lowercased (and stripped) text contains one
of the six mutating keywords as a substring; when it yields exactly one,
`changed` is `rowsAffected > 0` if the lowercased query contains a DML
keyword, else `true` if it contains a DDL keyword, else `false`. -/
theorem execute_query_changed_spec (eng : Engine) (db q : String)
    (params : Option (List String)) (fetch : String) (transaction : Bool)
    (res : QueryResult) (tr : List EngineCall)
    (h : execute_query eng db q params fetch transaction = (.ok res, tr)) :
    (1 < (splitStatements q).length →
      res.changed = (splitStatements q).any (fun stmt =>
        (dml_keywords ++ ddl_keywords).any (fun kw =>
          containsSub (pyStrip (pyLower stmt)) kw))) ∧
    ((splitStatements q).length = 1 →
      res.changed =
        (if dml_keywords.any (fun kw => containsSub (pyStrip (pyLower q)) kw) then
          decide (0 < res.rowcount)
        else if ddl_keywords.any (fun kw => containsSub (pyStrip (pyLower q)) kw) then
          true
        else false)) := by
  have hc := execute_query_ok_changed eng db q params fetch transaction res tr h
  constructor
  · intro hlen
    rw [hc]
    unfold computeChanged
    rw [if_pos hlen]
  · intro hlen
    rw [hc]
    unfold computeChanged
    rw [if_neg (by omega)]

/-- The result of the concrete single-statement `INSERT` run used to
instantiate `execute_query_changed_spec`. -/
def insertRunResult : QueryResult :=
  { rowcount := 2, columns := none, rows := none, changed := true }

/-- Witness for `execute_query_changed_spec`: instantiated at a concrete
single-statement `INSERT` whose execution reports rowcount 2. -/
theorem execute_query_changed_spec_witness :
    (1 < (splitStatements "INSERT INTO t VALUES (1)").length →
      insertRunResult.changed =
        (splitStatements "INSERT INTO t VALUES (1)").any (fun stmt =>
          (dml_keywords ++ ddl_keywords).any (fun kw =>
            containsSub (pyStrip (pyLower stmt)) kw))) ∧
    ((splitStatements "INSERT INTO t VALUES (1)").length = 1 →
      insertRunResult.changed =
        (if dml_keywords.any (fun kw =>
            containsSub (pyStrip (pyLower "INSERT INTO t VALUES (1)")) kw) then
          decide (0 < insertRunResult.rowcount)
        else if ddl_keywords.any (fun kw =>
            containsSub (pyStrip (pyLower "INSERT INTO t VALUES (1)")) kw) then
          true
        else false)) :=
  execute_query_changed_spec multiEngine "/var/lib/app.db"
    "INSERT INTO t VALUES (1)" none "all" true
    insertRunResult [.exec, .commit] rfl

/-- Prepending one backoff sleep at exponent `a` to the schedule that
starts at exponent `a + 1` yields the schedule that starts at `a`. -/
theorem backoff_cons (d : ℚ) (a k : Nat) :
    d * 2 ^ a :: (List.range k).map (fun i => d * 2 ^ (a + 1 + i)) =
      (List.range (k + 1)).map (fun i => d * 2 ^ (a + i)) := by
  rw [List.range_succ_eq_map, List.map_cons, List.map_map]
  refine congrArg₂ List.cons ?_ ?_
  · rw [Nat.add_zero]
  · apply List.map_congr_left
    intro i _
    show d * 2 ^ (a + 1 + i) = d * 2 ^ (a + (i + 1))
    rw [show a + (i + 1) = a + 1 + i by omega]

/-- Master invariant of `retryLoop`: starting at attempt index `a` with
`fuel` loop iterations remaining (where `fuel + a = max_retries + 1`),
the loop makes between 1 and `fuel` execution attempts; every
re-attempt is preceded by a transient lock/busy operational failure of
the previous attempt; the sleep trace is exactly the exponential
backoff schedule for the re-attempts made; an immediate success returns
at once with no sleep; and an immediately non-transient failure raises
the `SQLiteOperationError` for that attempt with no sleep. -/
theorem retryLoop_spec (eng : Nat → Option PyError) (q : String)
    (mr : Nat) (d : ℚ) :
    ∀ (fuel a : Nat) (le : Option PyError),
      fuel + a = mr + 1 → 1 ≤ fuel →
      (1 ≤ (retryLoop eng q mr d fuel a le).attempts ∧
        (retryLoop eng q mr d fuel a le).attempts ≤ fuel) ∧
      (∀ i, i + 1 < (retryLoop eng q mr d fuel a le).attempts →
        ∃ e, eng (a + i) = some e ∧ e.isOperationalError = true ∧
          isTransientMsg e.str = true) ∧
      ((retryLoop eng q mr d fuel a le).sleeps =
        (List.range ((retryLoop eng q mr d fuel a le).attempts - 1)).map
          (fun i => d * 2 ^ (a + i))) ∧
      (eng a = none →
        retryLoop eng q mr d fuel a le = ⟨.ok (), [], 1⟩) ∧
      (∀ e, eng a = some e →
        (e.isOperationalError && isTransientMsg e.str) = false →
        retryLoop eng q mr d fuel a le =
          ⟨.error (.operationError (standardize_error_message
              "query execution" e
              [("query", pyTake q 100),
               ("attempt", toString (a + 1))])), [], 1⟩) := by
  intro fuel
  induction fuel with
  | zero =>
    intro a le hinv hfuel
    omega
  | succ f ih =>
    intro a le hinv _
    cases heng : eng a with
    | none =>
      have hr : retryLoop eng q mr d (f + 1) a le = ⟨.ok (), [], 1⟩ := by
        simp only [retryLoop, heng]
      rw [hr]
      refine ⟨⟨le_refl 1, by dsimp only; omega⟩, ?_, rfl, fun _ => rfl, ?_⟩
      · intro i hi
        dsimp only at hi
        omega
      · intro e he
        exact Option.noConfusion he
    | some e =>
      by_cases hretry : retriesAt e a mr = true
      · have hsplit : e.isOperationalError = true ∧
            isTransientMsg e.str = true ∧ a < mr := by
          have h := hretry
          unfold retriesAt at h
          simp only [Bool.and_eq_true, decide_eq_true_eq] at h
          exact ⟨h.1.1, h.1.2, h.2⟩
        obtain ⟨hop, htrans, hlt⟩ := hsplit
        have hr : retryLoop eng q mr d (f + 1) a le =
            { result := (retryLoop eng q mr d f (a + 1) (some e)).result
              sleeps := d * 2 ^ a ::
                (retryLoop eng q mr d f (a + 1) (some e)).sleeps
              attempts := (retryLoop eng q mr d f (a + 1) (some e)).attempts
                + 1 } := by
          simp only [retryLoop, heng, hretry, if_true]
        have hinv' : f + (a + 1) = mr + 1 := by omega
        have hf' : 1 ≤ f := by omega
        obtain ⟨⟨hat1, hat2⟩, htrb, hslb, -, -⟩ := ih (a + 1) (some e) hinv' hf'
        rw [hr]
        refine ⟨⟨by dsimp only; omega, by dsimp only; omega⟩, ?_, ?_, ?_, ?_⟩
        · intro i hi
          dsimp only at hi
          cases i with
          | zero =>
            exact ⟨e, by rw [Nat.add_zero]; exact heng, hop, htrans⟩
          | succ j =>
            have hj : j + 1 <
                (retryLoop eng q mr d f (a + 1) (some e)).attempts := by
              omega
            obtain ⟨e', he', hoe', hte'⟩ := htrb j hj
            refine ⟨e', ?_, hoe', hte'⟩
            rw [show a + (j + 1) = a + 1 + j by omega]
            exact he'
        · dsimp only
          obtain ⟨k, hk⟩ := Nat.exists_eq_add_of_le hat1
          rw [hslb, hk]
          simp only [Nat.add_sub_cancel_left, Nat.add_sub_cancel]
          rw [show 1 + k = k + 1 by omega]
          exact backoff_cons d a k
        · intro hnone
          exact Option.noConfusion hnone
        · intro e' he' hfalse
          injection he' with he'
          subst he'
          rw [hop, htrans] at hfalse
          simp at hfalse
      · have hfalse : retriesAt e a mr = false := by
          simp only [Bool.not_eq_true] at hretry
          exact hretry
        have hr : retryLoop eng q mr d (f + 1) a le =
            { result := .error (.operationError (standardize_error_message
                "query execution" e
                [("query", pyTake q 100),
                 ("attempt", toString (a + 1))]))
              sleeps := []
              attempts := 1 } := by
          simp only [retryLoop, heng, hfalse, Bool.false_eq_true, if_false]
        rw [hr]
        refine ⟨⟨le_refl 1, by dsimp only; omega⟩, ?_, rfl, ?_, ?_⟩
        · intro i hi
          dsimp only at hi
          omega
        · intro hnone
          exact Option.noConfusion hnone
        · intro e' he' _
          injection he' with he'
          subst he'
          rfl

/-- Claim C2: `safe_execute_with_retry` makes at most `max_retries + 1`
execution attempts; every re-attempt follows an operational error whose
message contains `"database is locked"` or `"busy"` (case-insensitively,
via lowercasing), and is preceded by a sleep of
`retry_delay * 2 ^ attempt`, the sleep trace being exactly the backoff
schedule; if the first attempt succeeds the cursor is returned at once
with no sleep and no further attempt; and if the first attempt fails
with anything other than a transient operational error, the call raises
`SQLiteOperationError` immediately with no sleep and no further
attempt. -/
theorem safe_execute_with_retry_spec (eng : Nat → Option PyError)
    (q : String) (mr : Nat) (d : ℚ) :
    ((safe_execute_with_retry eng q mr d).attempts ≤ mr + 1) ∧
    (∀ i, i + 1 < (safe_execute_with_retry eng q mr d).attempts →
      ∃ e, eng i = some e ∧ e.isOperationalError = true ∧
        isTransientMsg e.str = true) ∧
    ((safe_execute_with_retry eng q mr d).sleeps =
      (List.range ((safe_execute_with_retry eng q mr d).attempts - 1)).map
        (fun i => d * 2 ^ i)) ∧
    (eng 0 = none →
      safe_execute_with_retry eng q mr d = ⟨.ok (), [], 1⟩) ∧
    (∀ e, eng 0 = some e →
      (e.isOperationalError && isTransientMsg e.str) = false →
      safe_execute_with_retry eng q mr d =
        ⟨.error (.operationError (standardize_error_message
            "query execution" e
            [("query", pyTake q 100), ("attempt", "1")])), [], 1⟩) := by
  obtain ⟨⟨-, h1⟩, h2, h3, h4, h5⟩ :=
    retryLoop_spec eng q mr d (mr + 1) 0 none (by omega) (by omega)
  unfold safe_execute_with_retry
  refine ⟨h1, ?_, ?_, h4, ?_⟩
  · intro i hi
    obtain ⟨e, he, hoe, hte⟩ := h2 i hi
    rw [Nat.zero_add] at he
    exact ⟨e, he, hoe, hte⟩
  · rw [h3]
    apply List.map_congr_left
    intro i _
    rw [Nat.zero_add]
  · intro e he hfalse
    have := h5 e he hfalse
    rw [this]
    rfl

/-- Witness for `safe_execute_with_retry_spec`: with a cursor that is
locked on the first two attempts and succeeds on the third, the wrapper
makes at most 4 attempts and the failure preceding the second attempt is
a transient locked operational error. -/
theorem safe_execute_with_retry_spec_witness :
    (safe_execute_with_retry lockedTwiceEngine "SELECT 1" 3
        (1/10)).attempts ≤ 4 ∧
    (∃ e, lockedTwiceEngine 1 = some e ∧ e.isOperationalError = true ∧
      isTransientMsg e.str = true) := by
  refine ⟨(safe_execute_with_retry_spec lockedTwiceEngine "SELECT 1" 3
    (1/10)).1, ?_⟩
  exact (safe_execute_with_retry_spec lockedTwiceEngine "SELECT 1" 3
    (1/10)).2.1 1 (by decide)

end SqliteCollection
